import Mathlib

/-!
Shallow embedding of the CSDMPY demo-analysis core (src/src/core/demo_parser.py,
src/src/core/data_processor.py, src/src/utils/map_config.py,
src/src/gui/demo_viewer.py), together with proofs about the embedded
definitions.  Machine floats are modelled as rationals, Python dicts keyed by
steam id as functions `String → Option PlayerData`, and pandas rows as
structures with `Option` fields (a `none` field is an absent column value).
-/

namespace CSDM

/-- Team enumeration as used by `DemoParserWrapper._parse_team`
(`Team.T`, `Team.CT`, `Team.SPECTATOR`, `Team.UNASSIGNED`). -/
inductive Team where
  | T
  | CT
  | SPECTATOR
  | UNASSIGNED
deriving DecidableEq

/-- `leadsWith needle hay` holds when `needle` is an initial segment of `hay`
(helper for Python's `in` substring test). -/
def leadsWith : List Char → List Char → Bool
  | [], _ => true
  | _ :: _, [] => false
  | a :: as, b :: bs => a = b && leadsWith as bs

/-- `occursIn needle hay` models Python's `needle in hay` substring test. -/
def occursIn (needle : List Char) : List Char → Bool
  | [] => needle.isEmpty
  | c :: rest => leadsWith needle (c :: rest) || occursIn needle rest

/-- `strContains hay needle` models Python's `needle in hay` on strings. -/
def strContains (hay needle : String) : Bool :=
  occursIn needle.data hay.data

/-- Python's `str.upper()` restricted to ASCII letters (all keywords the
parser compares against are ASCII). -/
def strUpper (s : String) : String :=
  String.mk (s.data.map Char.toUpper)

/-- Embeds `DemoParserWrapper._parse_team` (demo_parser.py lines 247-258):
uppercase the raw name, then keyword-match. -/
def parse_team (team_name : String) : Team :=
  let u := strUpper team_name
  if strContains u "TERRORIST" || u == "T" then Team.T
  else if strContains u "CT" || strContains u "COUNTER" then Team.CT
  else if strContains u "SPEC" then Team.SPECTATOR
  else Team.UNASSIGNED

/-- Modelled from the spec words for §4.2 (EntityResolver team normalization),
for comparison against `parse_team`: a case-insensitive keyword match, where
"s contains k case-insensitively" is read as containment after uppercasing
both sides, and "equals T" is read case-insensitively as well. -/
def teamSpec (s : String) : Team :=
  if strContains (strUpper s) "TERRORIST" || strUpper s = "T" then Team.T
  else if strContains (strUpper s) "CT" || strContains (strUpper s) "COUNTER" then Team.CT
  else if strContains (strUpper s) "SPEC" then Team.SPECTATOR
  else Team.UNASSIGNED

/-- One row of the `round_end` event table (demo_parser.py line 153; only
the fields `_parse_round` reads). -/
structure RoundEndEvent where
  tick : ℤ
  winner : String

/-- The Round fields populated by `_parse_round` that the round claims are
about (number, tick range, winner). -/
structure Round where
  number : ℕ
  start_tick : ℤ
  end_tick : ℤ
  winner : Team
deriving DecidableEq

/-- Embeds `DemoParserWrapper._parse_round` (demo_parser.py lines 173-198):
`start_tick = event.tick - 5000` (the source comment says "Примерно",
i.e. approximately), `end_tick = event.tick`. -/
def parse_round (round_num : ℕ) (round_data : RoundEndEvent) : Round :=
  { number := round_num,
    start_tick := round_data.tick - 5000,
    end_tick := round_data.tick,
    winner := parse_team round_data.winner }

/-- Helper for `parse_rounds`: the `enumerate(..., start=1)` loop of
`_parse_rounds`, carrying the running round number. -/
def parseRoundsFrom (n : ℕ) : List RoundEndEvent → List Round
  | [] => []
  | e :: es => parse_round n e :: parseRoundsFrom (n + 1) es

/-- Embeds `DemoParserWrapper._parse_rounds` (demo_parser.py lines 148-171):
every `round_end` event yields a round, numbered from 1 in event order. -/
def parse_rounds (evs : List RoundEndEvent) : List Round :=
  parseRoundsFrom 1 evs

/-- Default element used with `List.getD` when indexing round lists. -/
def defaultRound : Round := ⟨0, 0, 0, Team.UNASSIGNED⟩

/-- Default element used with `List.getD` when indexing event lists. -/
def defaultEvent : RoundEndEvent := ⟨0, ""⟩

/-- The `round_end` ticks of the spec's Scenario A, with arbitrary winner
strings. -/
def scenarioEvents : List RoundEndEvent :=
  [⟨1000, "CT"⟩, ⟨2500, "TERRORIST"⟩, ⟨4000, "CT"⟩]

/-- The mutable per-player counters and identity held in
`self.match.players` (the Player objects `_parse_players` creates and
`_parse_kills_for_round` mutates). -/
structure PlayerData where
  name : String
  team : Team
  kills : ℕ
  headshots : ℕ
  deaths : ℕ
deriving DecidableEq

/-- The player registry dict `self.match.players : steam id → Player`. -/
abbrev Reg : Type := String → Option PlayerData

/-- One row of the `player_death` event table; a `none` field models an
absent column value (pandas `row.get` miss). -/
structure DeathRow where
  tick : Option ℤ
  attacker_steamid : Option String
  attacker_name : Option String
  attacker_team_name : Option String
  user_steamid : Option String
  user_name : Option String
  user_team_name : Option String
  weapon : Option String
  headshot : Option Bool
  penetrated : Option Bool
deriving DecidableEq

/-- The Player built from a death row's attacker columns
(demo_parser.py lines 112-117): name defaults to "Unknown", team string
defaults to "". -/
def playerOfAttacker (row : DeathRow) : PlayerData :=
  { name := row.attacker_name.getD "Unknown",
    team := parse_team (row.attacker_team_name.getD ""),
    kills := 0, headshots := 0, deaths := 0 }

/-- The Player built from a death row's victim columns
(demo_parser.py lines 122-127). -/
def playerOfVictim (row : DeathRow) : PlayerData :=
  { name := row.user_name.getD "Unknown",
    team := parse_team (row.user_team_name.getD ""),
    kills := 0, headshots := 0, deaths := 0 }

/-- The guarded insertion of `_parse_players`: a steam id is registered
only when it is non-empty, not "0", and not registered yet
(demo_parser.py lines 113 and 123). -/
def regInsert (m : Reg) (sid : String) (p : PlayerData) : Reg :=
  if sid ≠ "" ∧ sid ≠ "0" ∧ (m sid).isNone then
    fun s => if s = sid then some p else m s
  else m

/-- Embeds `DemoParserWrapper._parse_players` (demo_parser.py lines
109-146): one pass registering attackers, then one registering victims.
(The source repeats each pass once per present column; the repetition is
idempotent because of the not-yet-registered guard.) -/
def parse_players (rows : List DeathRow) : Reg :=
  let m1 := rows.foldl
    (fun m row => regInsert m (row.attacker_steamid.getD "") (playerOfAttacker row))
    (fun _ => none)
  rows.foldl
    (fun m row => regInsert m (row.user_steamid.getD "") (playerOfVictim row)) m1

/-- The Kill record built by `_parse_kills_for_round`
(demo_parser.py lines 223-231), with killer/victim kept as steam-id
references. -/
structure Kill where
  tick : ℤ
  killer : String
  victim : String
  weapon : String
  is_headshot : Bool
  is_wallbang : Bool
deriving DecidableEq

/-- The field defaults applied when building a Kill from a death row
(`row.get("weapon", "unknown")`, `row.get("headshot", False)`,
`row.get("penetrated", False)`, `row.get("tick", 0)`). -/
def mkKill (row : DeathRow) : Kill :=
  { tick := row.tick.getD 0,
    killer := row.attacker_steamid.getD "",
    victim := row.user_steamid.getD "",
    weapon := row.weapon.getD "unknown",
    is_headshot := row.headshot.getD false,
    is_wallbang := row.penetrated.getD false }

/-- The killer-counter mutation of demo_parser.py lines 236-238. -/
def bumpKiller (hs : Bool) (p : PlayerData) : PlayerData :=
  { p with kills := p.kills + 1,
           headshots := p.headshots + (if hs then 1 else 0) }

/-- The victim-counter mutation of demo_parser.py line 239. -/
def bumpVictim (p : PlayerData) : PlayerData :=
  { p with deaths := p.deaths + 1 }

/-- In-place update of one registry entry (mutating a Player object that
the dict already holds). -/
def regAdjust (m : Reg) (sid : String) (f : PlayerData → PlayerData) : Reg :=
  fun s => if s = sid then (m sid).map f else m s

/-- Embeds one iteration of the row loop in
`DemoParserWrapper._parse_kills_for_round` (demo_parser.py lines 204-243):
skip the row unless its tick is inside this round's range and both steam
ids resolve; otherwise append a Kill and bump the resolved players'
counters. -/
def processKillRow (round_obj : Round) (st : Reg × List Kill) (row : DeathRow) :
    Reg × List Kill :=
  let tick := row.tick.getD 0
  if round_obj.start_tick ≤ tick ∧ tick ≤ round_obj.end_tick then
    let attacker_id := row.attacker_steamid.getD ""
    let victim_id := row.user_steamid.getD ""
    match st.1 attacker_id, st.1 victim_id with
    | some _, some _ =>
        let kill := mkKill row
        let reg1 := regAdjust st.1 attacker_id (bumpKiller kill.is_headshot)
        let reg2 := regAdjust reg1 victim_id bumpVictim
        (reg2, st.2 ++ [kill])
    | _, _ => st
  else st

/-- Embeds `DemoParserWrapper._parse_kills_for_round`: fold the row loop
over the whole death table for one round. -/
def parse_kills_for_round (round_obj : Round) (rows : List DeathRow) (reg : Reg) :
    Reg × List Kill :=
  rows.foldl (processKillRow round_obj) (reg, [])

/-- The per-round kill attribution loop of `_parse_rounds`: each round
scans the whole death table, sharing the mutated player registry, and
keeps its own kill list. -/
def parse_match_kills : List Round → List DeathRow → Reg → Reg × List (List Kill)
  | [], _, reg => (reg, [])
  | r :: rs, rows, reg =>
      ((parse_match_kills rs rows (parse_kills_for_round r rows reg).1).1,
       (parse_kills_for_round r rows reg).2 ::
         (parse_match_kills rs rows (parse_kills_for_round r rows reg).1).2)

/-- A one-entry registry holding only steam id "A", used to instantiate
the drop-branch theorem. -/
def witnessReg : Reg :=
  fun s => if s = "A" then some ⟨"Alice", Team.CT, 0, 0, 0⟩ else none

/-- A death row whose attacker steam id "X" is unregistered in
`witnessReg`. -/
def witnessDropRow : DeathRow :=
  { tick := some 100, attacker_steamid := some "X", attacker_name := none,
    attacker_team_name := none, user_steamid := some "A", user_name := none,
    user_team_name := none, weapon := some "ak47", headshot := some true,
    penetrated := none }

/-- One row of the per-tick position table (the columns `parse_positions`
requests at demo_parser.py lines 311-314); `none` models a missing value. -/
structure RawTickRow where
  steamid : Option String
  X : Option ℚ
  Y : Option ℚ
  Z : Option ℚ
  yaw : Option ℚ
  health : Option ℤ
  armor : Option ℤ
  is_alive : Option Bool
  team_name : Option String
  active_weapon_name : Option String
deriving DecidableEq

/-- The per-player sample of a visualization frame (models.PlayerFrame as
populated by `parse_positions`). -/
structure PlayerFrame where
  tick : ℤ
  player : String
  position : ℚ × ℚ × ℚ
  view_angle : ℚ
  health : ℤ
  armor : ℤ
  is_alive : Bool
  active_weapon : Option String
deriving DecidableEq

/-- The PlayerFrame construction of demo_parser.py lines 360-370, with the
defaults the source applies (`yaw` 0, `health` 100, `armor` 0,
`is_alive` True, and `active_weapon_name` passed through un-defaulted). -/
def mkPlayerFrame (tick : ℤ) (sid : String) (pos : ℚ × ℚ × ℚ)
    (row : RawTickRow) : PlayerFrame :=
  { tick := tick, player := sid, position := pos,
    view_angle := row.yaw.getD 0,
    health := row.health.getD 100,
    armor := row.armor.getD 0,
    is_alive := row.is_alive.getD true,
    active_weapon := row.active_weapon_name }

/-- A tick-table row with every column absent. -/
def emptyTickRow : RawTickRow :=
  ⟨none, none, none, none, none, none, none, none, none, none⟩

/-- A death-table row with every column absent. -/
def emptyDeathRow : DeathRow :=
  ⟨none, none, none, none, none, none, none, none, none, none⟩

/-- The playback fields of `DemoViewer` that `_advance_frame` reads and
writes (demo_viewer.py lines 310-323 and 443-470). -/
structure ViewerState where
  num_frames : ℕ
  current_frame_index : ℕ
  interpolation_progress : ℚ
  playback_speed : ℚ
  render_fps : ℚ
  game_fps : ℚ
  is_playing : Bool
deriving DecidableEq

/-- `DemoViewer.pause` restricted to the playback fields (the timer stop
and signal emission have no effect on them). -/
def viewer_pause (s : ViewerState) : ViewerState :=
  { s with is_playing := false }

/-- Embeds `DemoViewer._advance_frame` (demo_viewer.py lines 443-470):
step the interpolation progress by
`(1 / (render_fps / game_fps)) * playback_speed`; on reaching 1.0, move to
the next frame and reset the progress to 0.0, pausing at end of stream. -/
def advance_frame (s : ViewerState) : ViewerState :=
  if s.num_frames ≤ s.current_frame_index + 1 then viewer_pause s
  else
    let step_size : ℚ := 1 / (s.render_fps / s.game_fps)
    let p := s.interpolation_progress + step_size * s.playback_speed
    if 1 ≤ p then
      if s.num_frames ≤ s.current_frame_index + 1 + 1 then
        viewer_pause { s with current_frame_index := s.current_frame_index + 1,
                              interpolation_progress := 0 }
      else
        { s with current_frame_index := s.current_frame_index + 1,
                 interpolation_progress := 0 }
    else { s with interpolation_progress := p }

/-- A concrete playing state: 10 frames, progress 0.9, speed 1.8, 60 fps
render, 30 fps samples (so a 0.9 progress step per render tick). -/
def cexState : ViewerState :=
  { num_frames := 10, current_frame_index := 0, interpolation_progress := 9 / 10,
    playback_speed := 9 / 5, render_fps := 60, game_fps := 30, is_playing := true }

/-- Per-weapon aggregate built by `DataProcessor.get_weapon_stats`
(data_processor.py lines 157-169): kill count, headshot count, and the
set of users (modelled as a dedup-on-insert list). -/
structure WeaponAgg where
  kills : ℕ
  headshots : ℕ
  users : List String
deriving DecidableEq

/-- Set-insert for the weapon's user set. -/
def usersInsert (l : List String) (u : String) : List String :=
  if l.contains u then l else l ++ [u]

/-- One kill's contribution to its weapon's aggregate
(data_processor.py lines 165-169). -/
def bumpWeapon (k : Kill) (w : WeaponAgg) : WeaponAgg :=
  { kills := w.kills + 1,
    headshots := w.headshots + (if k.is_headshot then 1 else 0),
    users := usersInsert w.users k.killer }

/-- Fold step building the weapon table as a Python dict: association list
in first-encounter key order (Python dicts preserve insertion order). -/
def addKillToTable (acc : List (String × WeaponAgg)) (k : Kill) :
    List (String × WeaponAgg) :=
  if (acc.lookup k.weapon).isSome then
    acc.map (fun p => if p.1 = k.weapon then (p.1, bumpWeapon k p.2) else p)
  else acc ++ [(k.weapon, bumpWeapon k ⟨0, 0, []⟩)]

/-- The unsorted weapon table of `get_weapon_stats`, keyed in
first-encounter order over the match's flattened kill list. -/
def weapon_table (kills : List Kill) : List (String × WeaponAgg) :=
  kills.foldl addKillToTable []

/-- The comparator realized by
`sorted(result.items(), key=lambda x: x[1]["kills"], reverse=True)`
(data_processor.py line 185): descending by kill count. -/
def weaponOrder (a b : String × WeaponAgg) : Prop :=
  b.2.kills ≤ a.2.kills

instance : DecidableRel weaponOrder :=
  fun a b => Nat.decLe b.2.kills a.2.kills

instance : IsTotal (String × WeaponAgg) weaponOrder :=
  ⟨fun a b => Nat.le_total b.2.kills a.2.kills⟩

instance : IsTrans (String × WeaponAgg) weaponOrder :=
  ⟨fun _ _ _ hab hbc => le_trans hbc hab⟩

/-- Embeds `DataProcessor.get_weapon_stats` (data_processor.py lines
150-185): build the weapon table, then sort it descending by kill count.
Python's `sorted` is a stable sort on this comparator; `insertionSort`
with the non-strict descending comparator is stable in the same way
(among equal kill counts the table order is preserved). -/
def get_weapon_stats (kills : List Kill) : List (String × WeaponAgg) :=
  List.insertionSort weaponOrder (weapon_table kills)

/-- A kill with weapon "m4a1" (for the tie-break scenario). -/
def killM4 : Kill := ⟨100, "P1", "P2", "m4a1", false, false⟩

/-- A kill with weapon "ak47" (for the tie-break scenario). -/
def killAK : Kill := ⟨200, "P1", "P2", "ak47", false, false⟩

/-- The first `while angle_diff > 180: angle_diff -= 360` loop of
`_create_interpolated_frame` (demo_viewer.py lines 514-515). -/
def loopSub (d : ℚ) : ℚ :=
  if 180 < d then loopSub (d - 360) else d
termination_by (⌈(d - 180) / 360⌉).toNat
decreasing_by
  have h360 : ((d - 360 : ℚ) - 180) / 360 = (d - 180) / 360 - 1 := by ring
  rw [h360, Int.ceil_sub_one]
  have hpos : (0 : ℚ) < (d - 180) / 360 := by
    apply div_pos (by linarith) (by norm_num)
  have h1 : (1 : ℤ) ≤ ⌈(d - 180) / 360⌉ := Int.ceil_pos.mpr hpos
  omega

/-- The second `while angle_diff < -180: angle_diff += 360` loop of
`_create_interpolated_frame` (demo_viewer.py lines 516-517). -/
def loopAdd (d : ℚ) : ℚ :=
  if d < -180 then loopAdd (d + 360) else d
termination_by (⌈(-180 - d) / 360⌉).toNat
decreasing_by
  have h360 : (-180 - (d + 360 : ℚ)) / 360 = (-180 - d) / 360 - 1 := by ring
  rw [h360, Int.ceil_sub_one]
  have hpos : (0 : ℚ) < (-180 - d) / 360 := by
    apply div_pos (by linarith) (by norm_num)
  have h1 : (1 : ℤ) ≤ ⌈(-180 - d) / 360⌉ := Int.ceil_pos.mpr hpos
  omega

/-- The angular-delta normalization of demo_viewer.py lines 512-517:
run both wrap-around loops in source order. -/
def normalize_angle_diff (d : ℚ) : ℚ :=
  loopAdd (loopSub d)

/-- One visualization frame (models.GameFrame restricted to the fields
`_create_interpolated_frame` uses). -/
structure GameFrame where
  tick : ℤ
  players : List PlayerFrame

/-- Embeds the per-player body of `DemoViewer._create_interpolated_frame`
(demo_viewer.py lines 492-533): look the player up in the next frame by
steam id; if absent keep the current sample unchanged, otherwise lerp the
position per axis, blend the view angle through the normalized delta, and
copy health, armor, is_alive and active_weapon from the current sample. -/
def interpPlayer (t : ℚ) (frame_tick : ℤ) (next_players : List PlayerFrame)
    (current_pf : PlayerFrame) : PlayerFrame :=
  match next_players.find? (fun npf => npf.player == current_pf.player) with
  | none => current_pf
  | some next_pf =>
    { tick := frame_tick,
      player := current_pf.player,
      position :=
        (current_pf.position.1 + (next_pf.position.1 - current_pf.position.1) * t,
         current_pf.position.2.1 + (next_pf.position.2.1 - current_pf.position.2.1) * t,
         current_pf.position.2.2 + (next_pf.position.2.2 - current_pf.position.2.2) * t),
      view_angle := current_pf.view_angle +
        normalize_angle_diff (next_pf.view_angle - current_pf.view_angle) * t,
      health := current_pf.health,
      armor := current_pf.armor,
      is_alive := current_pf.is_alive,
      active_weapon := current_pf.active_weapon }

/-- Embeds `DemoViewer._create_interpolated_frame` at the frame level:
a new frame stamped with the current frame's tick, interpolating each of
the current frame's players toward the next frame. -/
def create_interpolated_frame (t : ℚ) (current next_frame : GameFrame) :
    GameFrame :=
  { tick := current.tick,
    players := current.players.map (interpPlayer t current.tick next_frame.players) }

/-- Current sample of player "P1" for the interpolation witness. -/
def w10cur : PlayerFrame :=
  ⟨0, "P1", (0, 0, 0), 170, 100, 50, true, some "ak47"⟩

/-- Next sample of player "P1" for the interpolation witness (view angle
wrapped across the 180-degree boundary). -/
def w10next : PlayerFrame :=
  ⟨16, "P1", (10, 20, 30), -170, 80, 40, false, some "m4a1"⟩

/-- Per-map calibration record (map_config.py `MapBounds`). -/
structure MapBounds where
  pos_x : ℚ
  pos_y : ℚ
  scale : ℚ
  min_x : ℚ
  max_x : ℚ
  min_y : ℚ
  max_y : ℚ
deriving DecidableEq

/-- Embeds `world_to_radar` (map_config.py lines 144-170): normalize to
[0,1], flip Y, scale to the image. -/
def world_to_radar (x y : ℚ) (map_bounds : MapBounds)
    (image_width image_height : ℚ) : ℚ × ℚ :=
  let normalized_x := (x - map_bounds.min_x) / (map_bounds.max_x - map_bounds.min_x)
  let normalized_y := (y - map_bounds.min_y) / (map_bounds.max_y - map_bounds.min_y)
  let flipped_y := 1 - normalized_y
  (normalized_x * image_width, flipped_y * image_height)

/-- Embeds `radar_to_world` (map_config.py lines 173-199): normalize radar
coordinates, flip Y back, rescale into world units. -/
def radar_to_world (radar_x radar_y : ℚ) (map_bounds : MapBounds)
    (image_width image_height : ℚ) : ℚ × ℚ :=
  let normalized_x := radar_x / image_width
  let normalized_y := radar_y / image_height
  let flipped_y := 1 - normalized_y
  (map_bounds.min_x + normalized_x * (map_bounds.max_x - map_bounds.min_x),
   map_bounds.min_y + flipped_y * (map_bounds.max_y - map_bounds.min_y))

end CSDM

namespace CSDM

theorem parseRoundsFrom_length (es : List RoundEndEvent) :
    ∀ n, (parseRoundsFrom n es).length = es.length := by
  induction es with
  | nil => intro n; rfl
  | cons e es ih => intro n; simp [parseRoundsFrom, ih]

theorem parseRoundsFrom_getD (es : List RoundEndEvent) :
    ∀ n i, i < es.length →
      (parseRoundsFrom n es).getD i defaultRound =
        parse_round (n + i) (es.getD i defaultEvent) := by
  induction es with
  | nil => intro n i h; simp at h
  | cons e es ih =>
    intro n i h
    cases i with
    | zero => simp [parseRoundsFrom]
    | succ j =>
      have hj : j < es.length := by simpa using h
      simp only [parseRoundsFrom, List.getD_cons_succ]
      rw [ih (n + 1) j hj]
      congr 1
      omega

/-- C1 counterexample: on the spec's Scenario A `round_end` ticks
[1000, 2500, 4000] the code produces start ticks [-4000, -2500, -1000]
(each `event.tick - 5000`), not [1, 1001, 2501], and the first round's
start tick is neither 0 nor 1. -/
theorem parse_rounds_scenario_a_refutes :
    (parse_rounds scenarioEvents).map Round.start_tick = [-4000, -2500, -1000] ∧
    (parse_rounds scenarioEvents).map Round.end_tick = [1000, 2500, 4000] ∧
    ([-4000, -2500, -1000] : List ℤ) ≠ [1, 1001, 2501] ∧
    (-4000 : ℤ) ≠ 0 := by
  refine ⟨by decide, by decide, by decide, by decide⟩

/-- C1 amended: for every sequence of `round_end` events processed in
order, the i-th created Round (numbered i+1) has
`start_tick = event.tick - 5000` and `end_tick = event.tick` — the start
tick is a fixed 5000-tick offset from the event's own tick, independent of
the previous round's end tick. -/
theorem parse_rounds_fields (evs : List RoundEndEvent) (i : ℕ)
    (h : i < evs.length) :
    (parse_rounds evs).getD i defaultRound =
      { number := i + 1,
        start_tick := (evs.getD i defaultEvent).tick - 5000,
        end_tick := (evs.getD i defaultEvent).tick,
        winner := parse_team (evs.getD i defaultEvent).winner } := by
  rw [parse_rounds, parseRoundsFrom_getD evs 1 i h]
  simp [parse_round, Nat.add_comm]

/-- Witness for C1's amended theorem on Scenario A's event list. -/
theorem parse_rounds_fields_witness :
    1 < scenarioEvents.length ∧
    (parse_rounds scenarioEvents).getD 1 defaultRound =
      { number := 2, start_tick := -2500, end_tick := 2500, winner := Team.T } := by
  refine ⟨by decide, ?_⟩
  rw [parse_rounds_fields scenarioEvents 1 (by decide)]
  decide

/-- C2 counterexample: the rounds built from Scenario A's events overlap:
round 1 ends at tick 1000 but round 2 starts at tick -2500, so
`round[0].end_tick < round[1].start_tick` fails. -/
theorem parse_rounds_overlap :
    ¬ (((parse_rounds scenarioEvents).getD 0 defaultRound).end_tick <
        ((parse_rounds scenarioEvents).getD 1 defaultRound).start_tick) := by
  decide

/-- C2 amended: adjacent rounds satisfy the claimed non-overlap inequality
`round[i].end_tick < round[i+1].start_tick` exactly when the corresponding
`round_end` events are more than 5000 ticks apart; in general the produced
round list may overlap. -/
theorem parse_rounds_nonoverlap_iff (evs : List RoundEndEvent) (i : ℕ)
    (h : i + 1 < evs.length) :
    ((parse_rounds evs).getD i defaultRound).end_tick <
        ((parse_rounds evs).getD (i + 1) defaultRound).start_tick ↔
      (evs.getD i defaultEvent).tick + 5000 < (evs.getD (i + 1) defaultEvent).tick := by
  rw [parse_rounds_fields evs i (by omega), parse_rounds_fields evs (i + 1) h]
  dsimp only
  omega

/-- Witness for C2's amended theorem on Scenario A's event list (events 0
and 1 are 1500 ticks apart, so the non-overlap inequality fails on both
sides of the equivalence). -/
theorem parse_rounds_nonoverlap_iff_witness :
    0 + 1 < scenarioEvents.length ∧
    (((parse_rounds scenarioEvents).getD 0 defaultRound).end_tick <
        ((parse_rounds scenarioEvents).getD 1 defaultRound).start_tick ↔
      (scenarioEvents.getD 0 defaultEvent).tick + 5000 <
        (scenarioEvents.getD 1 defaultEvent).tick) := by
  exact ⟨by decide, parse_rounds_nonoverlap_iff scenarioEvents 0 (by decide)⟩

/-- C5 counterexample: the string "SPECTATOR" contains the substring "CT"
("spe-CT-ator"), and `_parse_team` tests the CT branch before the SPEC
branch, so "SPECTATOR" normalizes to `Team.CT`, not `Team.SPECTATOR` as the
claim's particular case asserts. -/
theorem parse_team_spectator_is_ct :
    parse_team "SPECTATOR" = Team.CT ∧ Team.CT ≠ Team.SPECTATOR := by
  constructor
  · decide
  · decide

/-- C5 amended: the general keyword rules hold exactly as the spec states
them (branch order included), and concretely "TERRORIST" goes to T, "CT"
to CT, and an unrecognized string to Unassigned; but a string containing
"SPEC" reaches the Spectator branch only when it contains neither "CT" nor
"COUNTER" (nor "TERRORIST"), so "SPEC" goes to Spectator while "SPECTATOR"
goes to CT. -/
theorem parse_team_matches_spec :
    (∀ s : String, parse_team s = teamSpec s) ∧
    parse_team "TERRORIST" = Team.T ∧
    parse_team "terrorist" = Team.T ∧
    parse_team "t" = Team.T ∧
    parse_team "CT" = Team.CT ∧
    parse_team "Counter-Strike" = Team.CT ∧
    parse_team "SPEC" = Team.SPECTATOR ∧
    parse_team "spec" = Team.SPECTATOR ∧
    parse_team "SPECTATOR" = Team.CT ∧
    parse_team "banana" = Team.UNASSIGNED := by
  refine ⟨fun s => ?_, by decide, by decide, by decide, by decide, by decide,
    by decide, by decide, by decide, by decide⟩
  simp only [parse_team, teamSpec]
  rfl

/-- C4: the canvas-to-world transform inverts the world-to-canvas transform
exactly (rational arithmetic) for any in-bounds point, whenever the bounds
rectangle is non-degenerate and the image dimensions are positive. -/
theorem radar_world_round_trip (b : MapBounds) (w h x y : ℚ)
    (hx : b.min_x < b.max_x) (hy : b.min_y < b.max_y)
    (hw : 0 < w) (hh : 0 < h)
    (hxl : b.min_x ≤ x) (hxu : x ≤ b.max_x)
    (hyl : b.min_y ≤ y) (hyu : y ≤ b.max_y) :
    radar_to_world (world_to_radar x y b w h).1 (world_to_radar x y b w h).2
      b w h = (x, y) := by
  have hx0 : b.max_x - b.min_x ≠ 0 := by linarith
  have hy0 : b.max_y - b.min_y ≠ 0 := by linarith
  have hw0 : w ≠ 0 := ne_of_gt hw
  have hh0 : h ≠ 0 := ne_of_gt hh
  simp only [radar_to_world, world_to_radar, Prod.mk.injEq]
  constructor
  all_goals field_simp
  all_goals ring

theorem regAdjust_isNone (m : Reg) (sid : String) (f : PlayerData → PlayerData)
    (s : String) : ((regAdjust m sid f) s).isNone = (m s).isNone := by
  unfold regAdjust
  by_cases h : s = sid
  · subst h; simp
  · simp [h]

theorem processKillRow_isNone (r : Round) (st : Reg × List Kill) (row : DeathRow)
    (s : String) : ((processKillRow r st row).1 s).isNone = (st.1 s).isNone := by
  unfold processKillRow
  dsimp only
  by_cases hc : r.start_tick ≤ row.tick.getD 0 ∧ row.tick.getD 0 ≤ r.end_tick
  · rw [if_pos hc]
    cases ha : st.1 (row.attacker_steamid.getD "") with
    | none =>
      cases hv : st.1 (row.user_steamid.getD "") with
      | none => rfl
      | some q => rfl
    | some p =>
      cases hv : st.1 (row.user_steamid.getD "") with
      | none => rfl
      | some q => simp only [regAdjust_isNone]
  · rw [if_neg hc]

theorem foldl_processKillRow_isNone (r : Round) (rows : List DeathRow) :
    ∀ (st : Reg × List Kill) (s : String),
      ((rows.foldl (processKillRow r) st).1 s).isNone = (st.1 s).isNone := by
  induction rows with
  | nil => intro st s; rfl
  | cons row rows ih =>
    intro st s
    rw [List.foldl_cons, ih, processKillRow_isNone]

theorem parse_kills_for_round_isNone (r : Round) (rows : List DeathRow)
    (reg : Reg) (s : String) :
    ((parse_kills_for_round r rows reg).1 s).isNone = (reg s).isNone :=
  foldl_processKillRow_isNone r rows (reg, []) s

theorem processKillRow_drop (r : Round) (st : Reg × List Kill) (row : DeathRow)
    (h : (st.1 (row.attacker_steamid.getD "")).isNone = true ∨
         (st.1 (row.user_steamid.getD "")).isNone = true ∨
         ¬ (r.start_tick ≤ row.tick.getD 0 ∧ row.tick.getD 0 ≤ r.end_tick)) :
    processKillRow r st row = st := by
  unfold processKillRow
  dsimp only
  by_cases hc : r.start_tick ≤ row.tick.getD 0 ∧ row.tick.getD 0 ≤ r.end_tick
  · rw [if_pos hc]
    cases ha : st.1 (row.attacker_steamid.getD "") with
    | none =>
      cases hv : st.1 (row.user_steamid.getD "") with
      | none => rfl
      | some q => rfl
    | some p =>
      cases hv : st.1 (row.user_steamid.getD "") with
      | none => rfl
      | some q =>
        exfalso
        rcases h with h | h | h
        · rw [ha] at h; simp at h
        · rw [hv] at h; simp at h
        · exact h hc
  · rw [if_neg hc]

theorem foldl_middle_skip (r : Round) (pre suf : List DeathRow) (row : DeathRow)
    (st : Reg × List Kill)
    (h : processKillRow r (pre.foldl (processKillRow r) st) row =
      pre.foldl (processKillRow r) st) :
    (pre ++ row :: suf).foldl (processKillRow r) st =
      (pre ++ suf).foldl (processKillRow r) st := by
  rw [List.foldl_append, List.foldl_append, List.foldl_cons, h]

/-- C3: a death row that is dropped — because its killer or victim steam
id is absent from the registry, or because its tick lies in no round's
range — has no effect at all on kill attribution: removing the row from
the death table yields exactly the same registry (all counters) and the
same per-round kill lists. -/
theorem kills_drop_no_effect (rounds : List Round) (pre suf : List DeathRow)
    (row : DeathRow) : ∀ reg : Reg,
    ((reg (row.attacker_steamid.getD "")).isNone = true ∨
     (reg (row.user_steamid.getD "")).isNone = true ∨
     (∀ r ∈ rounds,
       ¬ (r.start_tick ≤ row.tick.getD 0 ∧ row.tick.getD 0 ≤ r.end_tick))) →
    parse_match_kills rounds (pre ++ row :: suf) reg =
      parse_match_kills rounds (pre ++ suf) reg := by
  induction rounds with
  | nil => intro reg h; rfl
  | cons r rs ih =>
    intro reg h
    have hdrop : processKillRow r (pre.foldl (processKillRow r) (reg, [])) row
        = pre.foldl (processKillRow r) (reg, []) := by
      apply processKillRow_drop
      rcases h with h | h | h
      · left; rw [foldl_processKillRow_isNone]; exact h
      · right; left; rw [foldl_processKillRow_isNone]; exact h
      · right; right; exact h r (List.mem_cons_self r rs)
    have hround : parse_kills_for_round r (pre ++ row :: suf) reg
        = parse_kills_for_round r (pre ++ suf) reg := by
      unfold parse_kills_for_round
      exact foldl_middle_skip r pre suf row (reg, []) hdrop
    have hrest := ih ((parse_kills_for_round r (pre ++ suf) reg).1) (by
      rcases h with h | h | h
      · left; rw [parse_kills_for_round_isNone]; exact h
      · right; left; rw [parse_kills_for_round_isNone]; exact h
      · right; right; exact fun q hq => h q (List.mem_cons_of_mem r hq))
    simp only [parse_match_kills]
    rw [hround, hrest]

/-- Witness for C3: a one-round match, a one-entry registry, and a death
row whose attacker id "X" is unregistered; processing the table with the
row equals processing it without the row. -/
theorem kills_drop_no_effect_witness :
    (witnessReg (witnessDropRow.attacker_steamid.getD "")).isNone = true ∧
    parse_match_kills [⟨1, 0, 1000, Team.CT⟩] [witnessDropRow] witnessReg =
      parse_match_kills [⟨1, 0, 1000, Team.CT⟩] [] witnessReg :=
  ⟨by decide,
   kills_drop_no_effect [⟨1, 0, 1000, Team.CT⟩] [] [] witnessDropRow witnessReg
     (Or.inl (by decide))⟩

theorem regInsert_bad_key (m : Reg) (sid : String) (p : PlayerData)
    (s : String) (hs : s = "" ∨ s = "0") : regInsert m sid p s = m s := by
  unfold regInsert
  split
  case isTrue hcond =>
    have hne : s ≠ sid := by
      rcases hs with h | h <;> subst h
      · exact fun he => hcond.1 he.symm
      · exact fun he => hcond.2.1 he.symm
    simp [hne]
  case isFalse hcond => rfl

theorem foldl_regInsert_bad_key (g : DeathRow → String) (f : DeathRow → PlayerData)
    (rows : List DeathRow) : ∀ (m : Reg) (s : String), s = "" ∨ s = "0" →
      (rows.foldl (fun m row => regInsert m (g row) (f row)) m) s = m s := by
  induction rows with
  | nil => intro m s _; rfl
  | cons row rows ih =>
    intro m s hs
    rw [List.foldl_cons, ih _ s hs, regInsert_bad_key _ _ _ s hs]

/-- C9: the player registry built by `_parse_players` never acquires the
key "" or the key "0": rows whose steam id is empty or "0" are filtered by
the registration guard, for any input death table. -/
theorem parse_players_no_bad_keys (rows : List DeathRow) :
    parse_players rows "" = none ∧ parse_players rows "0" = none := by
  unfold parse_players
  constructor
  · rw [foldl_regInsert_bad_key _ _ rows _ "" (Or.inl rfl),
      foldl_regInsert_bad_key _ _ rows _ "" (Or.inl rfl)]
  · rw [foldl_regInsert_bad_key _ _ rows _ "0" (Or.inr rfl),
      foldl_regInsert_bad_key _ _ rows _ "0" (Or.inr rfl)]

/-- C7 counterexample: with the health column absent the built frame has
health 100 (not 0), with `is_alive` absent it is alive (not false), and a
kill with the weapon column absent gets weapon "unknown" (lowercase), not
"Unknown". -/
theorem ingest_defaults_refuted :
    (mkPlayerFrame 0 "s" (0, 0, 0) emptyTickRow).health = 100 ∧ ((100 : ℤ) ≠ 0) ∧
    (mkPlayerFrame 0 "s" (0, 0, 0) emptyTickRow).is_alive = true ∧ (true ≠ false) ∧
    (mkKill emptyDeathRow).weapon = "unknown" ∧ ("unknown" ≠ "Unknown") := by
  refine ⟨by decide, by decide, by decide, by decide, by decide, by decide⟩

/-- C7 amended: normalization fills absent fields with fixed defaults, but
they are not uniformly 0/"Unknown"/false: missing yaw and armor become 0,
missing player names become "Unknown", missing headshot/penetrated flags
become false, and missing kill ticks become 0, as claimed; however missing
health becomes 100, missing is_alive becomes true, a missing weapon name
becomes the lowercase "unknown", and a missing active weapon is passed
through as absent rather than defaulted. -/
theorem ingest_defaults (t : ℤ) (sid : String) (pos : ℚ × ℚ × ℚ)
    (row : RawTickRow) (drow : DeathRow) :
    (row.yaw = none → (mkPlayerFrame t sid pos row).view_angle = 0) ∧
    (row.armor = none → (mkPlayerFrame t sid pos row).armor = 0) ∧
    (row.health = none → (mkPlayerFrame t sid pos row).health = 100) ∧
    (row.is_alive = none → (mkPlayerFrame t sid pos row).is_alive = true) ∧
    ((mkPlayerFrame t sid pos row).active_weapon = row.active_weapon_name) ∧
    (drow.weapon = none → (mkKill drow).weapon = "unknown") ∧
    (drow.headshot = none → (mkKill drow).is_headshot = false) ∧
    (drow.penetrated = none → (mkKill drow).is_wallbang = false) ∧
    (drow.tick = none → (mkKill drow).tick = 0) ∧
    (drow.attacker_name = none → (playerOfAttacker drow).name = "Unknown") ∧
    (drow.user_name = none → (playerOfVictim drow).name = "Unknown") := by
  refine ⟨?_, ?_, ?_, ?_, ?_, ?_, ?_, ?_, ?_, ?_, ?_⟩ <;>
    first
      | (intro h; simp [mkPlayerFrame, mkKill, playerOfAttacker, playerOfVictim, h])
      | simp [mkPlayerFrame]

/-- Witness for C7's amended theorem at fully-absent rows. -/
theorem ingest_defaults_witness :
    (mkPlayerFrame 0 "s" (0, 0, 0) emptyTickRow).view_angle = 0 ∧
    (mkPlayerFrame 0 "s" (0, 0, 0) emptyTickRow).armor = 0 ∧
    (mkPlayerFrame 0 "s" (0, 0, 0) emptyTickRow).health = 100 ∧
    (mkPlayerFrame 0 "s" (0, 0, 0) emptyTickRow).is_alive = true ∧
    (mkPlayerFrame 0 "s" (0, 0, 0) emptyTickRow).active_weapon = none ∧
    (mkKill emptyDeathRow).weapon = "unknown" ∧
    (mkKill emptyDeathRow).is_headshot = false ∧
    (mkKill emptyDeathRow).is_wallbang = false ∧
    (mkKill emptyDeathRow).tick = 0 ∧
    (playerOfAttacker emptyDeathRow).name = "Unknown" ∧
    (playerOfVictim emptyDeathRow).name = "Unknown" := by
  have h := ingest_defaults 0 "s" (0, 0, 0) emptyTickRow emptyDeathRow
  exact ⟨h.1 rfl, h.2.1 rfl, h.2.2.1 rfl, h.2.2.2.1 rfl, h.2.2.2.2.1,
    h.2.2.2.2.2.1 rfl, h.2.2.2.2.2.2.1 rfl, h.2.2.2.2.2.2.2.1 rfl,
    h.2.2.2.2.2.2.2.2.1 rfl, h.2.2.2.2.2.2.2.2.2.1 rfl,
    h.2.2.2.2.2.2.2.2.2.2 rfl⟩

/-- C6 counterexample: from progress 0.9 with a 0.9 step the code crosses
1.0, advances to frame 1, and resets the progress to exactly 0 — not to
the remainder, which would be 0.8 reading the step as
`(sample_fps/render_fps)*speed` and 3.5 reading it as the claim's
`(render_fps/sample_fps)*speed`. -/
theorem advance_frame_resets_to_zero :
    (advance_frame cexState).current_frame_index = 1 ∧
    (advance_frame cexState).interpolation_progress = 0 ∧
    cexState.interpolation_progress +
      (cexState.game_fps / cexState.render_fps) * cexState.playback_speed - 1
      = 4 / 5 ∧
    cexState.interpolation_progress +
      (cexState.render_fps / cexState.game_fps) * cexState.playback_speed - 1
      = 7 / 2 ∧
    (0 : ℚ) ≠ 4 / 5 ∧ (0 : ℚ) ≠ 7 / 2 := by
  refine ⟨?_, ?_, ?_, ?_, ?_, ?_⟩ <;>
    norm_num [advance_frame, viewer_pause, cexState]

/-- C6 amended: while playing and not at the last sample, each render tick
advances the interpolation fraction by
`(sample_fps / render_fps) * speed_multiplier` (the code's
`1 / (render_fps / sample_fps)` step, which equals that ratio); when the
fraction reaches 1.0 the viewer advances to the next discrete sample and
resets the fraction to zero, discarding the remainder. -/
theorem advance_frame_step (s : ViewerState)
    (hplay : s.is_playing = true)
    (hmid : s.current_frame_index + 1 < s.num_frames) :
    (1 / (s.render_fps / s.game_fps) = s.game_fps / s.render_fps) ∧
    (if 1 ≤ s.interpolation_progress + s.game_fps / s.render_fps * s.playback_speed
     then
       (advance_frame s).current_frame_index = s.current_frame_index + 1 ∧
       (advance_frame s).interpolation_progress = 0
     else
       (advance_frame s).current_frame_index = s.current_frame_index ∧
       (advance_frame s).interpolation_progress =
         s.interpolation_progress + s.game_fps / s.render_fps * s.playback_speed) := by
  have hdiv : 1 / (s.render_fps / s.game_fps) = s.game_fps / s.render_fps :=
    one_div_div _ _
  refine ⟨hdiv, ?_⟩
  unfold advance_frame
  rw [if_neg (by omega : ¬ s.num_frames ≤ s.current_frame_index + 1)]
  dsimp only
  rw [hdiv]
  by_cases hp : (1 : ℚ) ≤
      s.interpolation_progress + s.game_fps / s.render_fps * s.playback_speed
  · rw [if_pos hp, if_pos hp]
    by_cases hend : s.num_frames ≤ s.current_frame_index + 1 + 1
    · rw [if_pos hend]; exact ⟨rfl, rfl⟩
    · rw [if_neg hend]; exact ⟨rfl, rfl⟩
  · rw [if_neg hp, if_neg hp]
    exact ⟨rfl, rfl⟩

/-- Witness for C6's amended theorem at the concrete playing state. -/
theorem advance_frame_step_witness :
    cexState.is_playing = true ∧
    cexState.current_frame_index + 1 < cexState.num_frames ∧
    ((1 / (cexState.render_fps / cexState.game_fps) =
        cexState.game_fps / cexState.render_fps) ∧
     (if 1 ≤ cexState.interpolation_progress +
          cexState.game_fps / cexState.render_fps * cexState.playback_speed
      then
        (advance_frame cexState).current_frame_index =
          cexState.current_frame_index + 1 ∧
        (advance_frame cexState).interpolation_progress = 0
      else
        (advance_frame cexState).current_frame_index =
          cexState.current_frame_index ∧
        (advance_frame cexState).interpolation_progress =
          cexState.interpolation_progress +
            cexState.game_fps / cexState.render_fps * cexState.playback_speed)) :=
  ⟨rfl, by norm_num [cexState],
   advance_frame_step cexState rfl (by norm_num [cexState])⟩

/-- C8 counterexample: two kill lists containing the same kills for the
same two weapons (one kill each) but in opposite encounter order produce
weapon tables in opposite orders, so the relative order of equal-kill
weapons is the stable sort's insertion order, not any deterministic
function of the weapon names. -/
theorem weapon_tie_not_name_determined :
    ((get_weapon_stats [killM4, killAK]).map Prod.fst = ["m4a1", "ak47"]) ∧
    ((get_weapon_stats [killAK, killM4]).map Prod.fst = ["ak47", "m4a1"]) ∧
    (∀ p ∈ get_weapon_stats [killM4, killAK], p.2.kills = 1) ∧
    (∀ p ∈ get_weapon_stats [killAK, killM4], p.2.kills = 1) ∧
    (["m4a1", "ak47"] ≠ ["ak47", "m4a1"]) := by
  refine ⟨by decide, by decide, by decide, by decide, by decide⟩

/-- C8 amended: the weapon table is sorted descending by kill count; the
output is a permutation of the first-encounter-ordered table, and any two
entries that already stand in descending order there (equal counts
included) keep their relative order through the sort — the tie-break is
first-encounter order, not weapon name. -/
theorem get_weapon_stats_sorted (kills : List Kill) :
    List.Sorted weaponOrder (get_weapon_stats kills) ∧
    List.Perm (get_weapon_stats kills) (weapon_table kills) ∧
    (∀ a b : String × WeaponAgg, weaponOrder a b →
      List.Sublist [a, b] (weapon_table kills) →
      List.Sublist [a, b] (get_weapon_stats kills)) :=
  ⟨List.sorted_insertionSort weaponOrder (weapon_table kills),
   List.perm_insertionSort weaponOrder (weapon_table kills),
   fun _ _ hab hs => List.pair_sublist_insertionSort hab hs⟩

/-- Witness for C8's amended theorem: in the two-weapon tie scenario the
pair (m4a1, ak47) stands in (weak) descending order in the table and
survives the sort in that order. -/
theorem get_weapon_stats_sorted_witness :
    weaponOrder ("m4a1", ⟨1, 0, ["P1"]⟩) ("ak47", ⟨1, 0, ["P1"]⟩) ∧
    List.Sublist [("m4a1", (⟨1, 0, ["P1"]⟩ : WeaponAgg)), ("ak47", ⟨1, 0, ["P1"]⟩)]
      (weapon_table [killM4, killAK]) ∧
    List.Sublist [("m4a1", (⟨1, 0, ["P1"]⟩ : WeaponAgg)), ("ak47", ⟨1, 0, ["P1"]⟩)]
      (get_weapon_stats [killM4, killAK]) := by
  refine ⟨by decide, by decide, ?_⟩
  exact (get_weapon_stats_sorted [killM4, killAK]).2.2 _ _ (by decide) (by decide)

theorem loopSub_le (d : ℚ) : loopSub d ≤ 180 := by
  rw [loopSub]
  split
  case isTrue h => exact loopSub_le (d - 360)
  case isFalse h => linarith
termination_by (⌈(d - 180) / 360⌉).toNat
decreasing_by
  have h360 : ((d - 360 : ℚ) - 180) / 360 = (d - 180) / 360 - 1 := by ring
  rw [h360, Int.ceil_sub_one]
  have hpos : (0 : ℚ) < (d - 180) / 360 := by
    apply div_pos (by linarith) (by norm_num)
  have h1 : (1 : ℤ) ≤ ⌈(d - 180) / 360⌉ := Int.ceil_pos.mpr hpos
  omega

theorem loopAdd_bounds (d : ℚ) (hd : d ≤ 180) :
    -180 ≤ loopAdd d ∧ loopAdd d ≤ 180 := by
  rw [loopAdd]
  split
  case isTrue h => exact loopAdd_bounds (d + 360) (by linarith)
  case isFalse h => exact ⟨by linarith, by linarith⟩
termination_by (⌈(-180 - d) / 360⌉).toNat
decreasing_by
  have h360 : (-180 - (d + 360 : ℚ)) / 360 = (-180 - d) / 360 - 1 := by ring
  rw [h360, Int.ceil_sub_one]
  have hpos : (0 : ℚ) < (-180 - d) / 360 := by
    apply div_pos (by linarith) (by norm_num)
  have h1 : (1 : ℤ) ≤ ⌈(-180 - d) / 360⌉ := Int.ceil_pos.mpr hpos
  omega

theorem normalize_angle_diff_bounds (d : ℚ) :
    -180 ≤ normalize_angle_diff d ∧ normalize_angle_diff d ≤ 180 :=
  loopAdd_bounds (loopSub d) (loopSub_le d)

/-- C10: when the player is found in the next sample, the interpolated
player frame lerps the position per axis and blends the view angle along
the normalized (shortest-arc, within [-180, 180]) delta, while health,
armor, is_alive and the active weapon are copied verbatim from the current
sample; the interpolated frame of the whole `GameFrame` contains exactly
this per-player result. -/
theorem interpolated_frame_fields (t : ℚ) (current next_frame : GameFrame)
    (current_pf next_pf : PlayerFrame)
    (ht0 : 0 ≤ t) (ht1 : t < 1)
    (hmem : current_pf ∈ current.players)
    (hfind : next_frame.players.find? (fun npf => npf.player == current_pf.player)
      = some next_pf) :
    interpPlayer t current.tick next_frame.players current_pf =
      { tick := current.tick,
        player := current_pf.player,
        position :=
          (current_pf.position.1 + (next_pf.position.1 - current_pf.position.1) * t,
           current_pf.position.2.1 +
             (next_pf.position.2.1 - current_pf.position.2.1) * t,
           current_pf.position.2.2 +
             (next_pf.position.2.2 - current_pf.position.2.2) * t),
        view_angle := current_pf.view_angle +
          normalize_angle_diff (next_pf.view_angle - current_pf.view_angle) * t,
        health := current_pf.health,
        armor := current_pf.armor,
        is_alive := current_pf.is_alive,
        active_weapon := current_pf.active_weapon } ∧
    interpPlayer t current.tick next_frame.players current_pf ∈
      (create_interpolated_frame t current next_frame).players ∧
    -180 ≤ normalize_angle_diff (next_pf.view_angle - current_pf.view_angle) ∧
    normalize_angle_diff (next_pf.view_angle - current_pf.view_angle) ≤ 180 := by
  refine ⟨?_, ?_, (normalize_angle_diff_bounds _).1,
    (normalize_angle_diff_bounds _).2⟩
  · unfold interpPlayer
    rw [hfind]
  · exact List.mem_map_of_mem _ hmem

/-- Witness for C10 at t = 1/2 with a view angle wrapping from 170° to
-170° (the normalized delta is +20°, so the blend passes through 180°
rather than sweeping back through 0°). -/
theorem interpolated_frame_fields_witness :
    (0 : ℚ) ≤ 1 / 2 ∧ (1 / 2 : ℚ) < 1 ∧
    w10cur ∈ (GameFrame.mk 0 [w10cur]).players ∧
    (GameFrame.mk 16 [w10next]).players.find?
      (fun npf => npf.player == w10cur.player) = some w10next ∧
    interpPlayer (1 / 2) 0 [w10next] w10cur =
      ⟨0, "P1", (5, 10, 15), 180, 100, 50, true, some "ak47"⟩ := by
  have h := interpolated_frame_fields (1 / 2) (GameFrame.mk 0 [w10cur])
    (GameFrame.mk 16 [w10next]) w10cur w10next
    (by norm_num) (by norm_num) (List.mem_singleton.mpr rfl) (by decide)
  have hd : w10next.view_angle - w10cur.view_angle = -340 := by
    norm_num [w10next, w10cur]
  have hnorm : normalize_angle_diff (-340 : ℚ) = 20 := by
    unfold normalize_angle_diff
    rw [loopSub, if_neg (by norm_num), loopAdd, if_pos (by norm_num),
      loopAdd, if_neg (by norm_num)]
    norm_num
  refine ⟨by norm_num, by norm_num, List.mem_singleton.mpr rfl, by decide, ?_⟩
  rw [h.1, hd, hnorm]
  simp only [w10cur, w10next]
  norm_num

/-- Witness for C4 at concrete bounds and a concrete in-bounds point. -/
theorem radar_world_round_trip_witness :
    radar_to_world
      (world_to_radar 100 (-50) ⟨-2000, 2000, 5, -2000, 2000, -2000, 2000⟩ 1024 1024).1
      (world_to_radar 100 (-50) ⟨-2000, 2000, 5, -2000, 2000, -2000, 2000⟩ 1024 1024).2
      ⟨-2000, 2000, 5, -2000, 2000, -2000, 2000⟩ 1024 1024 = (100, -50) :=
  radar_world_round_trip ⟨-2000, 2000, 5, -2000, 2000, -2000, 2000⟩ 1024 1024
    100 (-50) (by norm_num) (by norm_num) (by norm_num) (by norm_num)
    (by norm_num) (by norm_num) (by norm_num) (by norm_num)

end CSDM
